import Mathlib

/-!
# Verification of the depot_tools credential/token management subsystem

This file gives a shallow embedding, in Lean 4, of the credential and token
management code of `auth.py` (the `Token`, `ReAuthContext`, `Authenticator`
and `GerritAuthenticator` components together with the credential-helper
protocol codec), and proves properties of that embedding.

Conventions of the embedding:
* Python strings are Lean `String`s; the helper's stdout bytes are modelled
  after UTF-8 decoding, as the decoded string.
* Python `dict` is modelled as an insertion-ordered association list
  (`PyDict`) with last-assignment-wins update (`dictInsert`) and `get`
  (`dictGet`).
* The external process invoker (`subprocess2`) is a collaborator: a helper
  invocation's observable outcome is a `ProcResult` (captured stdout,
  stderr and exit code), and functions of the embedding take that outcome
  as an argument.
* The mockable clock `datetime_now` is an explicit `now : Int` argument
  (seconds); `datetime.timedelta(seconds=30)` is the integer 30.
* `raise E` at a program point is recorded as an `Except.error` carrying
  the error kind named at that point; the Python-level semantics of
  actually *constructing* the exception object (where `super()` calls can
  themselves fail) is modelled separately by `constructError`.
-/

/-! ## Python string primitives used by `auth.py` -/

/-- Characters treated as whitespace by Python's `str.strip()` /
`str.lstrip()` (the subset relevant here: ASCII whitespace, the
information separators and NEL). -/
def pyIsSpace (c : Char) : Bool :=
  c = ' ' || c = '\t' || c = '\n' || c = '\x0d' || c = '\x0b' || c = '\x0c' ||
  c = '\x1c' || c = '\x1d' || c = '\x1e' || c = '\x1f' || c = '\x85'

/-- Python `str.strip()` with no arguments: remove leading and trailing
whitespace. -/
def pyStrip (s : String) : String :=
  String.mk (((s.data.dropWhile pyIsSpace).reverse.dropWhile pyIsSpace).reverse)

/-- Python `str.lstrip()` with no arguments: remove leading whitespace. -/
def pyLstrip (s : String) : String :=
  String.mk (s.data.dropWhile pyIsSpace)

/-- Line boundaries recognised by Python's `str.splitlines()`. -/
def pyIsLineBreak (c : Char) : Bool :=
  c = '\n' || c = '\x0d' || c = '\x0b' || c = '\x0c' ||
  c = '\x1c' || c = '\x1d' || c = '\x1e' || c = '\x85' ||
  c = '\u2028' || c = '\u2029'

/-- Worker for `pySplitlines`: `acc` is the current (reversed) line. -/
def pySplitlinesAux : List Char → List Char → List (List Char)
  | [], acc => if acc.isEmpty then [] else [acc.reverse]
  | '\x0d' :: '\n' :: rest, acc => acc.reverse :: pySplitlinesAux rest []
  | c :: rest, acc =>
    if pyIsLineBreak c then acc.reverse :: pySplitlinesAux rest []
    else pySplitlinesAux rest (c :: acc)

/-- Python `str.splitlines()`: split at universal line boundaries, with
`\r\n` counting as a single boundary and no trailing empty line. -/
def pySplitlines (s : String) : List String :=
  (pySplitlinesAux s.data []).map String.mk

/-- Python `line.split('=', 1)` guarded by `'=' in line`: `none` when the
line has no `=`, otherwise the part before the first `=` and the part
after it. -/
def splitOnFirstEq : List Char → Option (List Char × List Char)
  | [] => none
  | c :: rest =>
    if c = '=' then some ([], rest)
    else (splitOnFirstEq rest).map (fun p => (c :: p.1, p.2))

/-! ## Python `dict` model -/

/-- A Python `dict` with string keys and values: an insertion-ordered
association list whose keys are unique. -/
abbrev PyDict := List (String × String)

/-- Python `d.get(k, None)`. -/
def dictGet (d : PyDict) (k : String) : Option String :=
  (d.find? (fun p => p.1 = k)).map (fun p => p.2)

/-- Python `d[k] = v`: overwrite in place when the key is present
(keeping its position), append otherwise. -/
def dictInsert (d : PyDict) (k v : String) : PyDict :=
  if d.any (fun p => p.1 = k) then
    d.map (fun p => if p.1 = k then (k, v) else p)
  else d ++ [(k, v)]

/-- Python truthiness of an `Optional[str]`: `None` and the empty string
are falsy. -/
def pyTruthy : Option String → Bool
  | none => false
  | some s => !s.isEmpty

/-! ## `Token` (auth.py lines 57-68) -/

/-- `Token`: OAuth access token or ID token with its expiration time
(`None` if unknown). Times are in seconds. -/
structure Token where
  token : String
  expires_at : Option Int
deriving DecidableEq, Repr

/-- `Token.needs_refresh`: true iff the expiry is set and
`datetime_now() + timedelta(seconds=30) >= expires_at`; a token without
expiration time never expires. `now` is the injected clock. -/
def Token.needs_refresh (t : Token) (now : Int) : Bool :=
  match t.expires_at with
  | some e => now + 30 ≥ e
  | none => false

/-! ## `ReAuthContext` (auth.py lines 31-47) -/

/-- `ReAuthContext`: contextual information for ReAuth — a hostname and a
project on that host. -/
structure ReAuthContext where
  host : String
  project : String
deriving DecidableEq, Repr

/-- The f-string body of `ReAuthContext.to_git_cred_attrs` before
`.lstrip()`: it begins with the newline that follows the opening
triple-quote. -/
def rawCredAttrs (ctx : ReAuthContext) : String :=
  "\ncapability[]=authtype\nprotocol=https\nhost=" ++ ctx.host ++
  "\npath=" ++ ctx.project ++ "\n"

/-- `ReAuthContext.to_git_cred_attrs`: `assert self.project` (an empty
project fails the assertion, modelled as `none`), then the `lstrip`-ped
f-string, UTF-8 encoded (modelled as the decoded string). -/
def ReAuthContext.to_git_cred_attrs (ctx : ReAuthContext) : Option String :=
  if ctx.project.isEmpty then none
  else some (pyLstrip (rawCredAttrs ctx))

/-! ## `GerritAuthenticator` (auth.py lines 266-385) -/

/-- Observable outcome of one helper-process invocation: captured stdout,
captured stderr and the exit code (`subprocess2.communicate`). -/
structure ProcResult where
  stdout : String
  stderr : String
  exitcode : Int
deriving DecidableEq, Repr

/-- The error kinds a `GerritAuthenticator` operation can raise: the three
`Git*Error` classes of auth.py plus `subprocess2.CalledProcessError`
(which carries the exit code and the captured stdout/stderr). -/
inductive CallError where
  | gitLoginRequired
  | gitReAuthRequired
  | gitUnknown
  | calledProcessError (exitcode : Int) (stdout stderr : String)
deriving DecidableEq, Repr

/-- `GerritAuthenticator._call_helper`: return stdout on exit code 0
(`_GCL_EXITCODE_SUCCESS`); raise `GitLoginRequiredError` on 2
(`_GCL_EXITCODE_LOGIN_REQUIRED`); raise `GitReAuthRequiredError` on 3
(`_GCL_EXITCODE_REAUTH_REQUIRED`); raise `subprocess2.CalledProcessError`
(carrying exit code, stdout, stderr) on every other exit code. -/
def call_helper (r : ProcResult) : Except CallError String :=
  if r.exitcode = 0 then .ok r.stdout
  else if r.exitcode = 2 then .error .gitLoginRequired
  else if r.exitcode = 3 then .error .gitReAuthRequired
  else .error (.calledProcessError r.exitcode r.stdout r.stderr)

/-- `GerritAuthenticator._parse_creds_helper_out`: decode, split into
lines, and for each line containing `=` split on the first `=` and store
the stripped value under the key; later duplicate keys overwrite earlier
ones. Arrays (`key[]=value`) are not handled specially. -/
def parse_creds_helper_out (out_bytes : String) : PyDict :=
  (pySplitlines out_bytes).foldl
    (fun result line =>
      match splitOnFirstEq line.data with
      | some (k, v) => dictInsert result (String.mk k) (pyStrip (String.mk v))
      | none => result)
    []

/-- `GerritAuthenticator._extract_authorization_header`: parse the helper
output; if `authtype` and `credential` are both truthy return
`"<authtype> <credential>"`; else if `password` is truthy (the walrus
`if password := out.get("password", None):`) return
`"Bearer <password>"`; else `None`. -/
def extract_authorization_header (out_bytes : String) : Option String :=
  let out := parse_creds_helper_out out_bytes
  let authtype := dictGet out "authtype"
  let credential := dictGet out "credential"
  if pyTruthy authtype && pyTruthy credential then
    some (authtype.getD "" ++ " " ++ credential.getD "")
  else if pyTruthy (dictGet out "password") then
    some ("Bearer " ++ (dictGet out "password").getD "")
  else
    none

/-- How stdin is supplied to the helper process. -/
inductive StdinSpec where
  | devnull
  | dataOf (s : String)
deriving DecidableEq, Repr

/-- Static description of the helper invocation made by an operation:
argv and the stdin specification. -/
structure HelperInvocation where
  args : List String
  stdin : StdinSpec
deriving DecidableEq, Repr

/-- The invocation `GerritAuthenticator.get_access_token` makes:
`['git-credential-luci', 'get']` with `stdin=subprocess2.DEVNULL`. -/
def gerritAccessTokenInvocation : HelperInvocation :=
  { args := ["git-credential-luci", "get"], stdin := .devnull }

/-- The environment `GerritAuthenticator.get_access_token` passes to the
helper: a copy of `os.environ` with `LUCI_ENABLE_REAUTH` set to `'0'`. -/
def gerritAccessTokenEnv (environ : String → Option String) :
    String → Option String :=
  fun k => if k = "LUCI_ENABLE_REAUTH" then some "0" else environ k

/-- `GerritAuthenticator.get_access_token`, as a function of the helper
process outcome: classify the exit code via `_call_helper`, parse the
output, return the `password` value if truthy, else raise
`GitUnknownError`. -/
def gerrit_get_access_token (r : ProcResult) : Except CallError String :=
  match call_helper r with
  | .error e => .error e
  | .ok out_bytes =>
    let out := parse_creds_helper_out out_bytes
    if pyTruthy (dictGet out "password") then
      .ok ((dictGet out "password").getD "")
    else
      .error .gitUnknown

/-- The invocation `GerritAuthenticator.get_authorization_header` makes
for a given context: `['git-credential-luci', 'get']` with the encoded
context on stdin (only reachable when encoding succeeded). -/
def gerritAuthorizationInvocation (ctx : ReAuthContext) :
    Option HelperInvocation :=
  (ctx.to_git_cred_attrs).map (fun attrs => ⟨["git-credential-luci", "get"], .dataOf attrs⟩)

/-- `GerritAuthenticator.get_authorization_header`, as a function of the
helper process outcome: classify the exit code via `_call_helper`, then
`if header := self._extract_authorization_header(out_bytes): return
header`, else raise `GitUnknownError`. -/
def gerrit_get_authorization_header (r : ProcResult) : Except CallError String :=
  match call_helper r with
  | .error e => .error e
  | .ok out_bytes =>
    if pyTruthy (extract_authorization_header out_bytes) then
      .ok ((extract_authorization_header out_bytes).getD "")
    else
      .error .gitUnknown

/-! ## `Authenticator` (auth.py lines 144-263) -/

/-- Mutable state of an `Authenticator` instance. -/
structure AuthState where
  scopes : String
  audience : Option String
  access_token : Option Token
  id_token : Option Token
deriving DecidableEq, Repr

/-- The error `Authenticator.get_access_token` / `get_id_token` can
raise: `LoginRequiredError`, carrying its `scopes`. -/
inductive AuthError where
  | loginRequired (scopes : String)
deriving DecidableEq, Repr

/-- Outcome of one `luci-auth token` invocation as seen through
`subprocess2.check_call_out`: either exit 0 with the parsed JSON fields
`token` and `expiry`, or a `CalledProcessError` for a non-zero exit. -/
inductive LuciOutcome where
  | success (token : String) (expiry : Int)
  | processError (exitcode : Int) (stdout stderr : String)
deriving DecidableEq, Repr

/-- The argument list `Authenticator._get_luci_auth_token` builds between
`['luci-auth', 'token']` and `['-json-output', '-']`. The conditional
expression in the source parses as
`(['-use-id-token'] + ['-audience', aud]) if aud else []`, so with
`use_id_token` and a falsy audience the list is empty. -/
def luci_auth_args (scopes : String) (audience : Option String)
    (use_id_token : Bool) : List String :=
  if use_id_token then
    if pyTruthy audience then ["-use-id-token", "-audience", audience.getD ""]
    else []
  else ["-scopes", scopes]

/-- Full argv of the `luci-auth token` invocation. -/
def luci_auth_argv (scopes : String) (audience : Option String)
    (use_id_token : Bool) : List String :=
  ["luci-auth", "token"] ++ luci_auth_args scopes audience use_id_token ++
  ["-json-output", "-"]

/-- `Authenticator._get_luci_auth_token`: on success build a `Token` from
the JSON `token` and `expiry` fields; a `CalledProcessError` is caught,
logged and turned into `None`. -/
def get_luci_auth_token (o : LuciOutcome) : Option Token :=
  match o with
  | .success tok expiry => some ⟨tok, some expiry⟩
  | .processError _ _ _ => none

/-- `Authenticator.get_access_token`: return the cached token if present
and fresh; otherwise reload from `_get_luci_auth_token` (outcome `o`),
return the reloaded token if present and fresh, else raise
`LoginRequiredError(self._scopes)`. Returns the token together with the
updated state. -/
def auth_get_access_token (st : AuthState) (now : Int) (o : LuciOutcome) :
    Except AuthError (Token × AuthState) :=
  match st.access_token with
  | some t =>
    if !t.needs_refresh now then .ok (t, st)
    else
      let t' := get_luci_auth_token o
      let st' := { st with access_token := t' }
      match t' with
      | some tt =>
        if !tt.needs_refresh now then .ok (tt, st')
        else .error (.loginRequired st.scopes)
      | none => .error (.loginRequired st.scopes)
  | none =>
    let t' := get_luci_auth_token o
    let st' := { st with access_token := t' }
    match t' with
    | some tt =>
      if !tt.needs_refresh now then .ok (tt, st')
      else .error (.loginRequired st.scopes)
    | none => .error (.loginRequired st.scopes)

/-! ## Exception classes and `super()` semantics (auth.py lines 71-128) -/

/-- The exception classes defined in auth.py, plus their common base
`Exception`. -/
inductive PyClass where
  | pyException
  | loginRequiredError
  | gitLoginRequiredError
  | gitReAuthRequiredError
  | gitUnknownError
deriving DecidableEq, Repr

/-- Each class's ancestors (itself and its bases): every auth.py error
class inherits directly from `Exception`. -/
def PyClass.ancestors : PyClass → List PyClass
  | .pyException => [.pyException]
  | c => [c, .pyException]

/-- The first argument of the `super(...)` call written in each class's
`__init__`. `GitUnknownError.__init__` names `GitLoginRequiredError`
(auth.py line 124); every other class names itself. -/
def superArgOfInit : PyClass → PyClass
  | .gitUnknownError => .gitLoginRequiredError
  | c => c

/-- Result of evaluating a class's constructor. -/
inductive ConstructResult where
  | constructed (c : PyClass)
  | typeError
deriving DecidableEq, Repr

/-- Python semantics of instantiating class `c`: `__init__` runs
`super(T, self).__init__(msg)` with `T = superArgOfInit c`, and
`super(T, obj)` raises `TypeError` unless `type(obj)` is `T` or a
subclass of `T`. -/
def constructError (c : PyClass) : ConstructResult :=
  if (PyClass.ancestors c).contains (superArgOfInit c) then .constructed c
  else .typeError

/-- What is actually raised by `raise E()` for an auth.py error kind:
the exception itself when its constructor succeeds, `TypeError` when the
constructor's `super()` call fails. -/
inductive RaisedOutcome where
  | raised (c : PyClass)
  | typeError
deriving DecidableEq, Repr

/-- Maps a flow-level `CallError` to the Python exception actually raised
at that `raise` statement, taking constructor semantics into account.
`CalledProcessError` is constructed by `subprocess2` and is unaffected. -/
def raisedFor : CallError → RaisedOutcome
  | .gitLoginRequired =>
    match constructError .gitLoginRequiredError with
    | .constructed c => .raised c
    | .typeError => .typeError
  | .gitReAuthRequired =>
    match constructError .gitReAuthRequiredError with
    | .constructed c => .raised c
    | .typeError => .typeError
  | .gitUnknown =>
    match constructError .gitUnknownError with
    | .constructed c => .raised c
    | .typeError => .typeError
  | .calledProcessError _ _ _ => .raised .pyException

/-! ## `Authenticator.authorize` (auth.py lines 208-238)

Python dicts are mutable objects passed by reference, so to state that the
wrapped request leaves the caller's headers dict unchanged we model dicts
by reference into an explicit heap of dict cells. -/

/-- A heap of Python dict objects; a reference is an index. -/
abbrev Heap := List PyDict

/-- Dereference a dict (out-of-range reads give the empty dict; theorems
restrict to valid references). -/
def heapRead (h : Heap) (r : Nat) : PyDict := h.getD r []

/-- Allocate a fresh dict object, returning the new heap and its
reference. -/
def heapAlloc (h : Heap) (d : PyDict) : Heap × Nat := (h ++ [d], h.length)

/-- Overwrite the dict object at reference `r`. -/
def heapWrite (h : Heap) (r : Nat) (d : PyDict) : Heap := h.set r d

/-- The arguments of the wrapped `new_request` closure, mirroring
`request_orig(uri, method, body, headers, redirections,
connection_type)`; `headersRef` is `None` or a reference to a headers
dict. -/
structure RequestArgs where
  uri : String
  method : String
  body : Option String
  headersRef : Option Nat
  redirections : Nat
  connectionType : Option String
deriving DecidableEq, Repr

/-- The body of `new_request` up to the delegation: evaluate
`headers = (headers or {}).copy()` (a fresh dict object holding a copy of
the caller's entries, or empty for `None`), obtain the token (here
`tokenValue`, the `.token` of the token the authenticator returned), set
`headers['Authorization'] = 'Bearer %s' % token`, and delegate with all
other arguments unchanged. Returns the heap after these effects and the
argument record passed to `request_orig`. -/
def new_request (tokenValue : String) (h : Heap) (a : RequestArgs) :
    Heap × RequestArgs :=
  let callerEntries := match a.headersRef with
    | some r => heapRead h r
    | none => []
  let alloc := heapAlloc h callerEntries
  let h1 := alloc.1
  let copyRef := alloc.2
  let h2 := heapWrite h1 copyRef
    (dictInsert (heapRead h1 copyRef) "Authorization" ("Bearer " ++ tokenValue))
  (h2, { a with headersRef := some copyRef })

/-! ## Spec-side comparison definitions

These definitions follow the words of the specification (not the source);
they exist only to be compared against the source-derived definitions
above. -/

/-- Trailing-only trim (Python `str.rstrip()`), used to state the spec's
claim that the codec trims only *trailing* whitespace from values. -/
def pyRstrip (s : String) : String :=
  String.mk (s.data.reverse.dropWhile pyIsSpace).reverse

/-- Modelled from the spec's words for the codec claim: identical to
`parse_creds_helper_out` except that values are trimmed of trailing
whitespace only. -/
def parse_creds_trailing_only (out_bytes : String) : PyDict :=
  (pySplitlines out_bytes).foldl
    (fun result line =>
      match splitOnFirstEq line.data with
      | some (k, v) => dictInsert result (String.mk k) (pyRstrip (String.mk v))
      | none => result)
    []

/-- The value a single protocol line contributes for key `k`: for a line
containing `=`, the part before the first `=` must equal `k` and the
stripped part after it is the value; a line without `=` contributes
nothing. -/
def credLineValue (line : String) (k : String) : Option String :=
  match splitOnFirstEq line.data with
  | some (kv, vv) => if String.mk kv = k then some (pyStrip (String.mk vv)) else none
  | none => none

/-- Modelled from the (amended) spec's words: the value reported for key
`k` is the one contributed by the *last* line that contributes a value
for `k` (later duplicate keys overwrite earlier ones); `none` when no
line contributes. -/
def specLastValue (lines : List String) (k : String) : Option String :=
  match lines with
  | [] => none
  | line :: rest =>
    match specLastValue rest k with
    | some v => some v
    | none => credLineValue line k

/-! ## Operations with exception-construction semantics applied -/

/-- `GerritAuthenticator.get_access_token` with each `raise` mapped to
the exception actually raised once constructor semantics are taken into
account. -/
def gerrit_get_access_token_raised (r : ProcResult) :
    Except RaisedOutcome String :=
  match gerrit_get_access_token r with
  | .ok s => .ok s
  | .error e => .error (raisedFor e)

/-- `GerritAuthenticator.get_authorization_header` with each `raise`
mapped to the exception actually raised once constructor semantics are
taken into account. -/
def gerrit_get_authorization_header_raised (r : ProcResult) :
    Except RaisedOutcome String :=
  match gerrit_get_authorization_header r with
  | .ok s => .ok s
  | .error e => .error (raisedFor e)

/-! ## Shared helper lemmas -/

theorem pyTruthy_some_of_ne (s : String) (h : s ≠ "") : pyTruthy (some s) = true := by
  simp [pyTruthy]
  rw [Bool.eq_false_iff]
  intro ht
  exact h ((String.isEmpty_iff s).mp ht)

theorem string_append_ne_empty_of_left (s t : String) (h : s.data ≠ []) :
    s ++ t ≠ "" := by
  intro he
  rw [String.ext_iff] at he
  rw [String.data_append] at he
  have he' : s.data ++ t.data = ([] : List Char) := he
  exact h (List.append_eq_nil.mp he').1

theorem header_join_ne_empty (a c : String) : a ++ " " ++ c ≠ "" := by
  apply string_append_ne_empty_of_left
  rw [String.data_append]
  simp

theorem bearer_join_ne_empty (p : String) : "Bearer " ++ p ≠ "" := by
  apply string_append_ne_empty_of_left
  simp

/-! ## Claim theorems -/

/-- C5: for every `Token` with expiry timestamp `E` and every current
time `now`, `needs_refresh` returns true iff `now ≥ E - 30`; for every
`Token` whose expiry is unset, `needs_refresh` returns false for every
`now`. -/
theorem token_needs_refresh_contract (t : Token) (now : Int) :
    (∀ e : Int, t.expires_at = some e →
      (t.needs_refresh now = true ↔ now ≥ e - 30)) ∧
    (t.expires_at = none → t.needs_refresh now = false) := by
  constructor
  · intro e he
    simp only [Token.needs_refresh, he, ge_iff_le, decide_eq_true_eq]
    omega
  · intro he
    simp [Token.needs_refresh, he]

/-- Witness for `token_needs_refresh_contract`: a token expiring at 100
is stale at time 70 (exactly 30s before expiry) and fresh at 69 (31s
before); a token without expiry is fresh at any time. -/
theorem token_needs_refresh_contract_check :
    (Token.mk "t" (some 100)).needs_refresh 70 = true ∧
    (Token.mk "t" (some 100)).needs_refresh 69 = false ∧
    (Token.mk "t" none).needs_refresh 70 = false := by
  refine ⟨?_, ?_, ?_⟩
  · exact ((token_needs_refresh_contract (Token.mk "t" (some 100)) 70).1 100 rfl).mpr
      (by decide)
  · have h := (token_needs_refresh_contract (Token.mk "t" (some 100)) 69).1 100 rfl
    have hno : ¬ ((69 : Int) ≥ 100 - 30) := by decide
    exact Bool.eq_false_iff.mpr (fun ht => hno (h.mp ht))
  · exact (token_needs_refresh_contract (Token.mk "t" none) 70).2 rfl

/-- C4 (failing input): with `use_id_token` and no audience configured,
the conditional-expression precedence makes the extra argument list
empty, so argv does not contain `-use-id-token` at all; with an audience
it does, and the access-token path carries `-scopes`. -/
theorem luci_auth_argv_id_token_no_audience :
    luci_auth_argv "S" none true = ["luci-auth", "token", "-json-output", "-"] ∧
    "-use-id-token" ∉ luci_auth_argv "S" none true ∧
    luci_auth_argv "S" (some "aud") true =
      ["luci-auth", "token", "-use-id-token", "-audience", "aud",
       "-json-output", "-"] ∧
    luci_auth_argv "S" none false =
      ["luci-auth", "token", "-scopes", "S", "-json-output", "-"] := by
  refine ⟨rfl, ?_, rfl, rfl⟩
  decide

/-- C1 (counterexample): on exit code 1 the helper call raises
`subprocess2.CalledProcessError` (carrying the exit code, stdout and
stderr), not `GitUnknownError`; likewise for other unmapped codes. -/
theorem call_helper_exit_one_refuted :
    call_helper ⟨"out", "err", 1⟩ =
      .error (.calledProcessError 1 "out" "err") ∧
    call_helper ⟨"out", "err", 1⟩ ≠ .error .gitUnknown ∧
    call_helper ⟨"out", "err", 5⟩ =
      .error (.calledProcessError 5 "out" "err") ∧
    call_helper ⟨"out", "err", 5⟩ ≠ .error .gitUnknown := by
  exact ⟨rfl, by simp [call_helper], rfl, by simp [call_helper]⟩

/-- C1 (amended): `_call_helper` classifies the exit code totally:
0 returns the captured stdout for parsing, 2 raises
`GitLoginRequiredError`, 3 raises `GitReAuthRequiredError`, and 1 or any
other code raises `subprocess2.CalledProcessError` carrying that code and
the captured stdout/stderr; the classification is applied before any
output parsing in both `get_access_token` and
`get_authorization_header`. -/
theorem call_helper_classification (r : ProcResult) :
    (r.exitcode = 0 → call_helper r = .ok r.stdout) ∧
    (r.exitcode = 2 → call_helper r = .error .gitLoginRequired) ∧
    (r.exitcode = 3 → call_helper r = .error .gitReAuthRequired) ∧
    (r.exitcode ≠ 0 → r.exitcode ≠ 2 → r.exitcode ≠ 3 →
      call_helper r = .error (.calledProcessError r.exitcode r.stdout r.stderr)) ∧
    (∀ e, call_helper r = .error e →
      gerrit_get_access_token r = .error e ∧
      gerrit_get_authorization_header r = .error e) := by
  refine ⟨?_, ?_, ?_, ?_, ?_⟩
  · intro h; simp [call_helper, h]
  · intro h; simp [call_helper, h]
  · intro h; simp [call_helper, h]
  · intro h0 h2 h3; simp [call_helper, h0, h2, h3]
  · intro e h
    constructor
    · simp [gerrit_get_access_token, h]
    · simp [gerrit_get_authorization_header, h]

/-- Witness for `call_helper_classification` at exit codes 0, 2, 3
and 7. -/
theorem call_helper_classification_check :
    call_helper ⟨"o", "e", 0⟩ = .ok "o" ∧
    call_helper ⟨"o", "e", 2⟩ = .error .gitLoginRequired ∧
    call_helper ⟨"o", "e", 3⟩ = .error .gitReAuthRequired ∧
    call_helper ⟨"o", "e", 7⟩ = .error (.calledProcessError 7 "o" "e") ∧
    gerrit_get_access_token ⟨"o", "e", 2⟩ = .error .gitLoginRequired := by
  refine ⟨(call_helper_classification ⟨"o", "e", 0⟩).1 rfl,
    (call_helper_classification ⟨"o", "e", 2⟩).2.1 rfl,
    (call_helper_classification ⟨"o", "e", 3⟩).2.2.1 rfl,
    (call_helper_classification ⟨"o", "e", 7⟩).2.2.2.1
      (by decide) (by decide) (by decide),
    ((call_helper_classification ⟨"o", "e", 2⟩).2.2.2.2 .gitLoginRequired
      ((call_helper_classification ⟨"o", "e", 2⟩).2.1 rfl)).1⟩

/-- C9: constructing `GitUnknownError` itself raises `TypeError` (its
`__init__` invokes `super()` against the unrelated
`GitLoginRequiredError` class), so on every input on which the flow
raises `GitUnknownError`, the operation actually fails with `TypeError`
rather than with a `GitUnknownError` carrying the remediation message. -/
theorem gitUnknownError_raises_typeError :
    constructError .gitUnknownError = .typeError ∧
    constructError .gitLoginRequiredError = .constructed .gitLoginRequiredError ∧
    (∀ r, gerrit_get_access_token r = .error .gitUnknown →
      gerrit_get_access_token_raised r = .error .typeError) ∧
    (∀ r, gerrit_get_authorization_header r = .error .gitUnknown →
      gerrit_get_authorization_header_raised r = .error .typeError) := by
  refine ⟨rfl, rfl, ?_, ?_⟩
  · intro r h
    simp [gerrit_get_access_token_raised, h]
    rfl
  · intro r h
    simp [gerrit_get_authorization_header_raised, h]
    rfl

/-- Witness for `gitUnknownError_raises_typeError`: the helper exiting 0
with empty output drives both operations into the `GitUnknownError`
branch, which surfaces as `TypeError`. -/
theorem gitUnknownError_raises_typeError_check :
    gerrit_get_access_token_raised ⟨"", "", 0⟩ = .error .typeError ∧
    gerrit_get_authorization_header_raised ⟨"", "", 0⟩ = .error .typeError := by
  exact ⟨gitUnknownError_raises_typeError.2.2.1 ⟨"", "", 0⟩ rfl,
    gitUnknownError_raises_typeError.2.2.2 ⟨"", "", 0⟩ rfl⟩

/-- C2 (counterexample): a parsed response in which the `authtype` field
is *present* but empty and `credential` is present and non-empty does not
yield `"<authtype> <credential>"`: the truthiness test
`if authtype and credential:` fails, no `password` is present, and
`GitUnknownError` is raised instead. -/
theorem gerrit_authorization_header_refuted :
    dictGet (parse_creds_helper_out "authtype=\ncredential=tok1\n") "authtype" =
      some "" ∧
    dictGet (parse_creds_helper_out "authtype=\ncredential=tok1\n") "credential" =
      some "tok1" ∧
    gerrit_get_authorization_header ⟨"authtype=\ncredential=tok1\n", "", 0⟩ =
      .error .gitUnknown ∧
    (Except.error CallError.gitUnknown : Except CallError String) ≠
      .ok (" " ++ "tok1") := by
  refine ⟨rfl, rfl, rfl, by simp⟩

/-- C2 (amended): for every parsed helper response,
`get_authorization_header` returns `"<authtype> <credential>"` when both
`authtype` and `credential` are present with non-empty values; otherwise
returns `"Bearer <password>"` when `password` is present with a non-empty
value; otherwise raises `GitUnknownError`. In particular
`{authtype: "Bearer", credential: "tok1"}` yields `"Bearer tok1"`,
`{password: "tok2"}` alone yields `"Bearer tok2"`, and the empty mapping
raises `GitUnknownError` (see the witness). -/
theorem gerrit_authorization_header_contract (r : ProcResult)
    (h0 : r.exitcode = 0) :
    (∀ a c, dictGet (parse_creds_helper_out r.stdout) "authtype" = some a →
      a ≠ "" →
      dictGet (parse_creds_helper_out r.stdout) "credential" = some c →
      c ≠ "" →
      gerrit_get_authorization_header r = .ok (a ++ " " ++ c)) ∧
    (∀ p, (pyTruthy (dictGet (parse_creds_helper_out r.stdout) "authtype") = false ∨
        pyTruthy (dictGet (parse_creds_helper_out r.stdout) "credential") = false) →
      dictGet (parse_creds_helper_out r.stdout) "password" = some p → p ≠ "" →
      gerrit_get_authorization_header r = .ok ("Bearer " ++ p)) ∧
    ((pyTruthy (dictGet (parse_creds_helper_out r.stdout) "authtype") = false ∨
      pyTruthy (dictGet (parse_creds_helper_out r.stdout) "credential") = false) →
      pyTruthy (dictGet (parse_creds_helper_out r.stdout) "password") = false →
      gerrit_get_authorization_header r = .error .gitUnknown) := by
  refine ⟨?_, ?_, ?_⟩
  · intro a c ha hA hc hC
    have hext : extract_authorization_header r.stdout = some (a ++ " " ++ c) := by
      simp [extract_authorization_header, ha, hc,
        pyTruthy_some_of_ne a hA, pyTruthy_some_of_ne c hC]
    simp [gerrit_get_authorization_header, call_helper, h0, hext,
      pyTruthy_some_of_ne _ (header_join_ne_empty a c)]
  · intro p hfalsy hp hP
    have hext : extract_authorization_header r.stdout = some ("Bearer " ++ p) := by
      rcases hfalsy with hf | hf
      · simp [extract_authorization_header, hf, hp, pyTruthy_some_of_ne p hP]
      · simp [extract_authorization_header, hf, hp, pyTruthy_some_of_ne p hP]
    simp [gerrit_get_authorization_header, call_helper, h0, hext,
      pyTruthy_some_of_ne _ (bearer_join_ne_empty p)]
  · intro hfalsy hpw
    have hext : extract_authorization_header r.stdout = none := by
      rcases hfalsy with hf | hf
      · simp [extract_authorization_header, hf, hpw]
      · simp [extract_authorization_header, hf, hpw]
    simp [gerrit_get_authorization_header, call_helper, h0, hext, pyTruthy]

/-- Witness for `gerrit_authorization_header_contract`: the three spec
examples — `{authtype: "Bearer", credential: "tok1"}` gives
`"Bearer tok1"`, `{password: "tok2"}` gives `"Bearer tok2"`, `{}` raises
`GitUnknownError`. -/
theorem gerrit_authorization_header_contract_check :
    gerrit_get_authorization_header ⟨"authtype=Bearer\ncredential=tok1\n", "", 0⟩ =
      .ok "Bearer tok1" ∧
    gerrit_get_authorization_header ⟨"password=tok2\n", "", 0⟩ =
      .ok "Bearer tok2" ∧
    gerrit_get_authorization_header ⟨"", "", 0⟩ = .error .gitUnknown := by
  refine ⟨?_, ?_, ?_⟩
  · have h := (gerrit_authorization_header_contract
      ⟨"authtype=Bearer\ncredential=tok1\n", "", 0⟩ rfl).1 "Bearer" "tok1"
      rfl (by decide) rfl (by decide)
    simpa using h
  · have h := (gerrit_authorization_header_contract
      ⟨"password=tok2\n", "", 0⟩ rfl).2.1 "tok2" (Or.inl rfl) rfl (by decide)
    simpa using h
  · exact (gerrit_authorization_header_contract ⟨"", "", 0⟩ rfl).2.2
      (Or.inl rfl) rfl

/-- C8 (counterexample): when the helper exits 0 with output
`"password=\n"` the `password` field is *present* (with empty value) but
`get_access_token` does not return it: the walrus truthiness test fails
and `GitUnknownError` is raised. -/
theorem gerrit_access_token_empty_password_refuted :
    dictGet (parse_creds_helper_out "password=\n") "password" = some "" ∧
    gerrit_get_access_token ⟨"password=\n", "", 0⟩ = .error .gitUnknown ∧
    (Except.error CallError.gitUnknown : Except CallError String) ≠ .ok "" := by
  refine ⟨rfl, rfl, by simp⟩

/-- C8 (amended): `GerritAuthenticator.get_access_token` invokes the
helper's `get` subcommand with empty stdin (`DEVNULL`) and an environment
in which ReAuth is forced off (`LUCI_ENABLE_REAUTH=0`, all other
variables unchanged), and on exit code 0 returns the `password` field of
the parsed output when it is present with a non-empty value, raising
`GitUnknownError` when it is absent or empty. -/
theorem gerrit_access_token_contract (r : ProcResult) (h0 : r.exitcode = 0) :
    (∀ p, dictGet (parse_creds_helper_out r.stdout) "password" = some p →
      p ≠ "" → gerrit_get_access_token r = .ok p) ∧
    (pyTruthy (dictGet (parse_creds_helper_out r.stdout) "password") = false →
      gerrit_get_access_token r = .error .gitUnknown) ∧
    (∀ environ : String → Option String,
      gerritAccessTokenEnv environ "LUCI_ENABLE_REAUTH" = some "0" ∧
      (∀ k, k ≠ "LUCI_ENABLE_REAUTH" → gerritAccessTokenEnv environ k = environ k)) ∧
    gerritAccessTokenInvocation.stdin = .devnull ∧
    gerritAccessTokenInvocation.args = ["git-credential-luci", "get"] := by
  refine ⟨?_, ?_, ?_, rfl, rfl⟩
  · intro p hp hne
    simp [gerrit_get_access_token, call_helper, h0, hp, pyTruthy_some_of_ne p hne]
  · intro hfalsy
    simp [gerrit_get_access_token, call_helper, h0, hfalsy]
  · intro environ
    refine ⟨by simp [gerritAccessTokenEnv], ?_⟩
    intro k hk
    simp [gerritAccessTokenEnv, hk]

/-- Witness for `gerrit_access_token_contract`: output `"password=abc\n"`
yields `"abc"`; empty output raises `GitUnknownError`; the environment
override and the non-overridden keys behave as stated. -/
theorem gerrit_access_token_contract_check :
    gerrit_get_access_token ⟨"password=abc\n", "", 0⟩ = .ok "abc" ∧
    gerrit_get_access_token ⟨"", "", 0⟩ = .error .gitUnknown ∧
    gerritAccessTokenEnv (fun _ => none) "LUCI_ENABLE_REAUTH" = some "0" ∧
    gerritAccessTokenEnv (fun _ => some "x") "PATH" = some "x" := by
  refine ⟨?_, ?_, ?_, ?_⟩
  · exact (gerrit_access_token_contract ⟨"password=abc\n", "", 0⟩ rfl).1 "abc"
      rfl (by decide)
  · exact (gerrit_access_token_contract ⟨"", "", 0⟩ rfl).2.1 rfl
  · exact ((gerrit_access_token_contract ⟨"", "", 0⟩ rfl).2.2.1 (fun _ => none)).1
  · exact ((gerrit_access_token_contract ⟨"", "", 0⟩ rfl).2.2.1 (fun _ => some "x")).2
      "PATH" (by decide)

/-- C3: for every helper-process outcome (including any non-zero exit),
`Authenticator.get_access_token` either returns a token that is not stale
or raises `LoginRequiredError` carrying the authenticator's scopes;
helper process failures are converted to "no token" one level down
(`_get_luci_auth_token` returns `None` on `CalledProcessError`) and are
never exposed to the caller as any other error. -/
theorem auth_get_access_token_contract (st : AuthState) (now : Int)
    (o : LuciOutcome) :
    (∀ t st', auth_get_access_token st now o = .ok (t, st') →
      t.needs_refresh now = false) ∧
    (∀ e, auth_get_access_token st now o = .error e →
      e = .loginRequired st.scopes) ∧
    (∀ exitcode sout serr,
      get_luci_auth_token (.processError exitcode sout serr) = none) := by
  refine ⟨?_, ?_, ?_⟩
  · intro t st' h
    unfold auth_get_access_token at h
    cases hA : st.access_token with
    | some t0 =>
      rw [hA] at h
      cases hf : t0.needs_refresh now with
      | false =>
        simp [hf] at h
        rw [← h.1]
        exact hf
      | true =>
        simp only [hf, Bool.not_true] at h
        simp only [Bool.false_eq_true, if_false] at h
        cases ho : get_luci_auth_token o with
        | none => rw [ho] at h; simp at h
        | some tt =>
          rw [ho] at h
          cases hf2 : tt.needs_refresh now with
          | false => simp [hf2] at h; rw [← h.1]; exact hf2
          | true => simp [hf2] at h
    | none =>
      rw [hA] at h
      cases ho : get_luci_auth_token o with
      | none => rw [ho] at h; simp at h
      | some tt =>
        rw [ho] at h
        cases hf2 : tt.needs_refresh now with
        | false => simp [hf2] at h; rw [← h.1]; exact hf2
        | true => simp [hf2] at h
  · intro e h
    unfold auth_get_access_token at h
    cases hA : st.access_token with
    | some t0 =>
      rw [hA] at h
      cases hf : t0.needs_refresh now with
      | false => simp [hf] at h
      | true =>
        simp only [hf, Bool.not_true] at h
        simp only [Bool.false_eq_true, if_false] at h
        cases ho : get_luci_auth_token o with
        | none => rw [ho] at h; simp at h; exact h.symm
        | some tt =>
          rw [ho] at h
          cases hf2 : tt.needs_refresh now with
          | false => simp [hf2] at h
          | true => simp [hf2] at h; exact h.symm
    | none =>
      rw [hA] at h
      cases ho : get_luci_auth_token o with
      | none => rw [ho] at h; simp at h; exact h.symm
      | some tt =>
        rw [ho] at h
        cases hf2 : tt.needs_refresh now with
        | false => simp [hf2] at h
        | true => simp [hf2] at h; exact h.symm
  · intro exitcode sout serr
    rfl

/-- Witness for `auth_get_access_token_contract`: a cached fresh token is
returned (and is not stale); with no cached token and a failing helper
process the call raises `LoginRequiredError` carrying the scopes. -/
theorem auth_get_access_token_contract_check :
    (Token.mk "tok" (some 1000)).needs_refresh 0 = false ∧
    AuthError.loginRequired "S" = .loginRequired "S" ∧
    get_luci_auth_token (.processError 1 "out" "err") = none := by
  refine ⟨?_, ?_, ?_⟩
  · exact (auth_get_access_token_contract
      ⟨"S", none, some ⟨"tok", some 1000⟩, none⟩ 0 (.processError 1 "" "")).1
      ⟨"tok", some 1000⟩ ⟨"S", none, some ⟨"tok", some 1000⟩, none⟩ rfl
  · exact (auth_get_access_token_contract
      ⟨"S", none, none, none⟩ 0 (.processError 1 "" "")).2.1
      (.loginRequired "S") rfl
  · exact (auth_get_access_token_contract
      ⟨"S", none, none, none⟩ 0 (.processError 1 "" "")).2.2 1 "out" "err"

/-! ## Dictionary lemmas for the codec -/

theorem dictGet_mapReplace (d : PyDict) (k' v k : String) (hkk : k ≠ k') :
    dictGet (d.map (fun p => if p.1 = k' then (k', v) else p)) k = dictGet d k := by
  induction d with
  | nil => rfl
  | cons a rest ih =>
    by_cases ha : a.1 = k'
    · simp only [List.map_cons, if_pos ha]
      unfold dictGet at *
      rw [List.find?_cons_of_neg _ (by simp only [decide_eq_true_eq]; exact fun hh => hkk hh.symm),
        List.find?_cons_of_neg _ (by simp only [decide_eq_true_eq]; exact fun hh => hkk (hh.symm.trans ha))]
      exact ih
    · simp only [List.map_cons, if_neg ha]
      by_cases hak : a.1 = k
      · unfold dictGet
        rw [List.find?_cons_of_pos _ (by simp only [decide_eq_true_eq]; exact hak),
          List.find?_cons_of_pos _ (by simp only [decide_eq_true_eq]; exact hak)]
      · unfold dictGet at *
        rw [List.find?_cons_of_neg _ (by simp only [decide_eq_true_eq]; exact hak),
          List.find?_cons_of_neg _ (by simp only [decide_eq_true_eq]; exact hak)]
        exact ih

theorem dictGet_mapReplace_self (d : PyDict) (k v : String)
    (hany : d.any (fun p => p.1 = k) = true) :
    dictGet (d.map (fun p => if p.1 = k then (k, v) else p)) k = some v := by
  induction d with
  | nil => simp at hany
  | cons a rest ih =>
    by_cases ha : a.1 = k
    · simp only [List.map_cons, if_pos ha]
      unfold dictGet
      rw [List.find?_cons_of_pos _ (by simp only [decide_eq_true_eq])]
      rfl
    · simp only [List.any_cons, Bool.or_eq_true, decide_eq_true_eq] at hany
      rcases hany with h | h
      · exact absurd h ha
      · simp only [List.map_cons, if_neg ha]
        unfold dictGet at *
        rw [List.find?_cons_of_neg _ (by simp only [decide_eq_true_eq]; exact ha)]
        exact ih h

theorem find?_eq_none_of_any_false (d : PyDict) (k : String)
    (hany : d.any (fun p => p.1 = k) = false) :
    d.find? (fun p => p.1 = k) = none := by
  rw [List.find?_eq_none]
  intro x hx
  rw [List.any_eq_false] at hany
  exact hany x hx

/-- The fundamental `dict` law: after `d[k'] = v`, looking up `k` gives
`v` when `k = k'` and the old value otherwise. -/
theorem dictGet_dictInsert (d : PyDict) (k' v k : String) :
    dictGet (dictInsert d k' v) k = if k = k' then some v else dictGet d k := by
  unfold dictInsert
  by_cases hany : d.any (fun p => p.1 = k') = true
  · rw [if_pos hany]
    by_cases hk : k = k'
    · subst hk
      rw [if_pos rfl]
      exact dictGet_mapReplace_self d k v hany
    · rw [if_neg hk]
      exact dictGet_mapReplace d k' v k hk
  · rw [if_neg hany]
    rw [Bool.not_eq_true] at hany
    by_cases hk : k = k'
    · subst hk
      rw [if_pos rfl]
      unfold dictGet
      rw [List.find?_append, find?_eq_none_of_any_false d k hany]
      rw [List.find?_cons_of_pos _ (by simp only [decide_eq_true_eq])]
      rfl
    · rw [if_neg hk]
      unfold dictGet
      rw [List.find?_append]
      have h1 : List.find? (fun p => p.1 = k) [(k', v)] = none := by
        rw [List.find?_cons_of_neg _ (by simp only [decide_eq_true_eq]; exact fun hh => hk hh.symm)]
        rfl
      rw [h1, Option.or_none]

/-- One parser step: processing a single line updates the mapping exactly
as `credLineValue` describes. -/
theorem dictGet_parseStep (d : PyDict) (line k : String) :
    dictGet (match splitOnFirstEq line.data with
      | some (kv, vv) => dictInsert d (String.mk kv) (pyStrip (String.mk vv))
      | none => d) k =
    match credLineValue line k with
    | some v => some v
    | none => dictGet d k := by
  unfold credLineValue
  cases hs : splitOnFirstEq line.data with
  | none => simp
  | some p =>
    obtain ⟨kv, vv⟩ := p
    simp only []
    rw [dictGet_dictInsert]
    by_cases hk : String.mk kv = k
    · rw [if_pos hk.symm, if_pos hk]
    · rw [if_neg (fun hh => hk hh.symm), if_neg hk]

/-- Folding the parser step over a list of lines computes, per key, the
last contributing line's value. -/
theorem dictGet_parse_foldl (lines : List String) (d : PyDict) (k : String) :
    dictGet (lines.foldl (fun result line =>
      match splitOnFirstEq line.data with
      | some (kv, vv) => dictInsert result (String.mk kv) (pyStrip (String.mk vv))
      | none => result) d) k =
    match specLastValue lines k with
    | some v => some v
    | none => dictGet d k := by
  induction lines generalizing d with
  | nil => simp [specLastValue]
  | cons line rest ih =>
    simp only [List.foldl_cons]
    rw [ih]
    cases hr : specLastValue rest k with
    | some v => simp [specLastValue, hr]
    | none =>
      simp only [specLastValue, hr]
      exact dictGet_parseStep d line k

/-- C6 (counterexample): on the line `"password= abc"` the code's
`value.strip()` removes the *leading* space as well, producing `"abc"`,
whereas trimming only trailing whitespace (the claim's words) would
produce `" abc"`. -/
theorem parse_trailing_only_refuted :
    parse_creds_helper_out "password= abc\n" = [("password", "abc")] ∧
    parse_creds_trailing_only "password= abc\n" = [("password", " abc")] ∧
    ([("password", "abc")] : PyDict) ≠ [("password", " abc")] := by
  refine ⟨rfl, rfl, by decide⟩

/-- C6 (amended): for every input, the credential-helper output parser
produces a mapping by splitting each line on the first `=` only, trimming
leading *and* trailing whitespace from the value; every line not
containing `=` is silently skipped, and when a key occurs on multiple
lines the last occurrence's value is kept: per key the mapping agrees
with `specLastValue`, the last contributing line's trimmed value. -/
theorem parse_creds_helper_out_spec (s k : String) :
    dictGet (parse_creds_helper_out s) k = specLastValue (pySplitlines s) k := by
  unfold parse_creds_helper_out
  rw [dictGet_parse_foldl]
  cases h : specLastValue (pySplitlines s) k <;> rfl

/-- C7: for every `ReAuthContext` with non-empty project, the wire
encoding is exactly the UTF-8 bytes of the four newline-terminated lines
`capability[]=authtype`, `protocol=https`, `host=<host>`,
`path=<project>` in that order; for every `ReAuthContext` with an empty
project, encoding fails (the assertion rejects it). -/
theorem to_git_cred_attrs_contract (ctx : ReAuthContext) :
    (ctx.project ≠ "" →
      ctx.to_git_cred_attrs = some
        ("capability[]=authtype\nprotocol=https\nhost=" ++ ctx.host ++
         "\npath=" ++ ctx.project ++ "\n")) ∧
    (ctx.project = "" → ctx.to_git_cred_attrs = none) := by
  constructor
  · intro h
    have hne : ctx.project.isEmpty = false := by
      rw [Bool.eq_false_iff]
      intro hh
      exact h ((String.isEmpty_iff _).mp hh)
    unfold ReAuthContext.to_git_cred_attrs
    simp only [hne, Bool.false_eq_true, if_false]
    rfl
  · intro h
    unfold ReAuthContext.to_git_cred_attrs
    rw [h]
    rfl

/-- Witness for `to_git_cred_attrs_contract` at the spec's example
context, and at an empty project. -/
theorem to_git_cred_attrs_contract_check :
    (ReAuthContext.mk "chromium-review.googlesource.com" "chromium/src").to_git_cred_attrs =
      some "capability[]=authtype\nprotocol=https\nhost=chromium-review.googlesource.com\npath=chromium/src\n" ∧
    (ReAuthContext.mk "h" "").to_git_cred_attrs = none := by
  constructor
  · exact (to_git_cred_attrs_contract
      (ReAuthContext.mk "chromium-review.googlesource.com" "chromium/src")).1
      (by decide)
  · exact (to_git_cred_attrs_contract (ReAuthContext.mk "h" "")).2 rfl

/-- C10: for every invocation of a request wrapped by
`Authenticator.authorize`, the caller's headers dict is left unchanged
(the wrapper copies it into a freshly allocated dict before inserting the
`Authorization` header), and the `uri`, `method`, `body`, `redirections`
and `connection_type` arguments are forwarded to the original request
unmodified; the dict actually passed on is the copy with
`Authorization: Bearer <token>` set. -/
theorem new_request_frame (tokenValue : String) (h : Heap) (a : RequestArgs)
    (r : Nat) (hr : a.headersRef = some r) (hlt : r < h.length) :
    heapRead (new_request tokenValue h a).1 r = heapRead h r ∧
    (new_request tokenValue h a).2.uri = a.uri ∧
    (new_request tokenValue h a).2.method = a.method ∧
    (new_request tokenValue h a).2.body = a.body ∧
    (new_request tokenValue h a).2.redirections = a.redirections ∧
    (new_request tokenValue h a).2.connectionType = a.connectionType ∧
    (new_request tokenValue h a).2.headersRef = some h.length ∧
    heapRead (new_request tokenValue h a).1 h.length =
      dictInsert (heapRead h r) "Authorization" ("Bearer " ++ tokenValue) := by
  refine ⟨?_, rfl, rfl, rfl, rfl, rfl, rfl, ?_⟩
  · simp only [new_request, hr, heapAlloc, heapWrite, heapRead,
      List.getD_eq_getElem?_getD]
    rw [List.getElem?_set_ne (by omega)]
    rw [List.getElem?_append]
    rw [if_pos hlt]
  · simp only [new_request, hr, heapAlloc, heapWrite, heapRead,
      List.getD_eq_getElem?_getD]
    rw [List.getElem?_set_self (by simp)]
    rw [List.getElem?_append]
    rw [if_neg (by omega)]
    simp

/-- Witness for `new_request_frame`: one caller dict `{X: 1}` at
reference 0; after the wrapped call the caller's dict is intact and the
freshly allocated dict carries the `Authorization` header. -/
theorem new_request_frame_check :
    heapRead (new_request "TOK" [[("X", "1")]] ⟨"u", "GET", none, some 0, 5, none⟩).1 0 =
      [("X", "1")] ∧
    (new_request "TOK" [[("X", "1")]] ⟨"u", "GET", none, some 0, 5, none⟩).2.headersRef =
      some 1 ∧
    heapRead (new_request "TOK" [[("X", "1")]] ⟨"u", "GET", none, some 0, 5, none⟩).1 1 =
      [("X", "1"), ("Authorization", "Bearer TOK")] := by
  have h := new_request_frame "TOK" [[("X", "1")]]
    ⟨"u", "GET", none, some 0, 5, none⟩ 0 rfl (by decide)
  exact ⟨h.1, h.2.2.2.2.2.2.1, h.2.2.2.2.2.2.2⟩
